import Mathlib

/-!
Shallow embedding of `homeassistant/components/vizio/config_flow.py`.

The config flow is a stateful session object.  We model:
* `ConfigData` — the validated user-input / entry-data dictionary
  (keys `name`, `host`, `device_class`, `access_token`, `volume_step`);
* `Entry` — a persisted configuration entry (its `data` dict and its
  `options` dict, of which only the `volume_step` key is ever used);
* `Hass` — the externally owned entry store: the list of persisted
  entries plus the set of unique identifiers claimed by entries or by
  in-progress flows;
* `Oracle` — the external pyvizio `VizioAsync` device client, whose
  network calls are modelled as pure functions supplied per run;
* `FlowState` — the mutable fields of a `VizioConfigFlow` instance;
* one Lean function per `async_step_*` method.  Python code that would
  raise on a `None` field access is modelled by returning `none`.
-/

namespace Vizio

/-- Device classes admitted by the config schema (`vol.In([DEVICE_CLASS_TV,
DEVICE_CLASS_SPEAKER])`). -/
inductive DeviceClass where
  | tv
  | speaker
deriving DecidableEq

/-- Trigger source of the flow, i.e. the source key of the flow context. -/
inductive Source where
  | user
  | imported
  | zeroconf
deriving DecidableEq

/-- A validated config dictionary: the keys used by the flow.  A missing
`access_token` key and an empty-string token are both falsy in Python, so
both are modelled as `""`.  `volume_step` is present only on imported
configs and on entry data that was merged from an imported config. -/
structure ConfigData where
  name : String
  host : String
  device_class : DeviceClass
  access_token : String := ""
  volume_step : Option Int := none
deriving DecidableEq

/-- A persisted configuration entry: `data` plus the `options` dict, of
which only the `volume_step` key is read or written by this component. -/
structure Entry where
  data : ConfigData
  options : Option Int := none
deriving DecidableEq

/-- The externally owned entry store (`self.hass.config_entries`):
the persisted entries of the domain, and the unique identifiers claimed
by configured entries or by in-progress flows. -/
structure Hass where
  entries : List Entry := []
  claimed_ids : List String := []
deriving DecidableEq

/-- Result of `VizioAsync.start_pair`. -/
structure PairData where
  ch_type : String
  token : String
deriving DecidableEq

/-- The external pyvizio device client, modelled as an oracle of pure
functions: `validate_ha_config`, `get_unique_id`, `start_pair`, `pair`
and `async_guess_device_type`. -/
structure Oracle where
  validate_ha_config : String → String → DeviceClass → Bool
  get_unique_id : String → String → DeviceClass → String
  start_pair : Option PairData
  pair : Option String → Option String → String → Option String
  guess_device_type : String → DeviceClass

/-- The mutable fields of a `VizioConfigFlow` instance, plus the flow
source key of the flow context.  The `_user_schema` field is modelled by the defaults
it stores (the last submitted input). -/
structure FlowState where
  user_schema : Option ConfigData := none
  must_show_form : Bool := false
  ch_type : Option String := none
  pairing_token : Option String := none
  data : Option ConfigData := none
  unique_id : Option String := none
  source : Source := Source.user
deriving DecidableEq

/-- The form-error dictionary: the four keys the flow ever sets. -/
structure Errors where
  host : Option String := none
  name : Option String := none
  base : Option String := none
  pin : Option String := none
deriving DecidableEq

/-- Python `if not errors`. -/
def Errors.is_empty (e : Errors) : Bool :=
  e.host.isNone && e.name.isNone && e.base.isNone && e.pin.isNone

/-- Outcome of one step invocation: a redisplayed form (step id, errors,
and the `description_placeholders` access token when present), a created
entry, or an abort. -/
inductive FlowResult where
  | show_form (step_id : String) (errors : Errors) (placeholder : Option String)
  | create_entry (title : String) (data : ConfigData)
  | abort (reason : String)
deriving DecidableEq

/-- A step invocation returns its result together with the updated flow
state and the updated entry store. -/
structure StepOut where
  result : FlowResult
  state : FlowState
  hass : Hass
deriving DecidableEq

/-- The characters before the first `:`. -/
def take_until_colon : List Char → List Char
  | [] => []
  | c :: cs => if c = ':' then [] else c :: take_until_colon cs

/-- Python `host.split(":")[0]`: the substring before the first `:`
(the whole string when it has no `:`). -/
def host_head (s : String) : String :=
  String.mk (take_until_colon s.data)

/-- Embedding of `_host_is_same`: compare the substrings before the first `:`. -/
def host_is_same (host1 host2 : String) : Bool :=
  host_head host1 == host_head host2

/-- Python string slice `s[:-k]` for `k ≥ 1`, on characters: drop the
last `k` characters, yielding the empty string when `k` exceeds the
length. -/
def drop_last_chars (s : String) (k : Nat) : String :=
  String.mk (s.data.take (s.data.length - k))

/-- The error dict built by the conflict-check loop in `async_step_user`:
the loop visits every existing entry and sets `errors[CONF_HOST]` /
`errors[CONF_NAME]` whenever a host (ignoring port) or name matches. -/
def conflict_errors (h : Hass) (input : ConfigData) : Errors :=
  { host := if h.entries.any fun e => host_is_same e.data.host input.host
              then some "host_exists" else none,
    name := if h.entries.any fun e => e.data.name == input.name
              then some "name_exists" else none }

/-- Embedding of `_create_entry_if_unique`.  The unique id comes from the device
client.  The subsequent `async_set_unique_id(raise_on_progress=True)` /
`_abort_if_unique_id_configured()` pair belongs to the host framework,
which is not under `src/`; it is modelled from the spec: the flow aborts
with reason `already_configured` when any entry or in-progress flow
already claims the identifier, and otherwise the created entry records
its claim. -/
def create_entry_if_unique (o : Oracle) (h : Hass) (input : ConfigData) :
    FlowResult × Hass :=
  if o.get_unique_id input.host input.access_token input.device_class ∈ h.claimed_ids then
    (FlowResult.abort "already_configured", h)
  else
    (FlowResult.create_entry input.name input,
     { entries := h.entries ++ [{ data := input }],
       claimed_ids :=
         h.claimed_ids ++ [o.get_unique_id input.host input.access_token input.device_class] })

/-- Embedding of `_pairing_complete`: create the entry unless the confirmation form
still has to be shown; showing it consumes the flag and carries the
access token as a description placeholder. -/
def pairing_complete_step (o : Oracle) (st : FlowState) (h : Hass)
    (step_id : String) : Option StepOut :=
  match st.data with
  | none => none
  | some d =>
    if st.must_show_form = false then
      some { result := (create_entry_if_unique o h d).1,
             state := st,
             hass := (create_entry_if_unique o h d).2 }
    else
      some { result := FlowResult.show_form step_id {} (some d.access_token),
             state := { st with must_show_form := false },
             hass := h }

/-- Embedding of `async_step_pairing_complete`. -/
def async_step_pairing_complete (o : Oracle) (st : FlowState) (h : Hass) :
    Option StepOut :=
  pairing_complete_step o st h "pairing_complete"

/-- Embedding of `async_step_pairing_complete_import`. -/
def async_step_pairing_complete_import (o : Oracle) (st : FlowState) (h : Hass) :
    Option StepOut :=
  pairing_complete_step o st h "pairing_complete_import"

/-- The part of `async_step_pair_tv` below the start-pairing block: if a
non-empty PIN was submitted, complete pairing through the device client;
success stores the auth token in the pending config, sets
`_must_show_form` and delegates to the pairing-complete step for the
source of the flow; failure redisplays the PIN form with
`complete_pairing_failed`.  Without a PIN the PIN form is redisplayed. -/
def pair_tv_rest (o : Oracle) (st : FlowState) (h : Hass)
    (user_input : Option String) : Option StepOut :=
  match user_input with
  | some pin =>
    if pin ≠ "" then
      match st.data with
      | none => none
      | some d =>
        match o.pair st.ch_type st.pairing_token pin with
        | some auth_token =>
          if st.source = Source.imported then
            async_step_pairing_complete_import o
              { st with data := some { d with access_token := auth_token },
                        must_show_form := true } h
          else
            async_step_pairing_complete o
              { st with data := some { d with access_token := auth_token },
                        must_show_form := true } h
        | none =>
          some { result := FlowResult.show_form "pair_tv"
                   { pin := some "complete_pairing_failed" } none,
                 state := st, hass := h }
    else
      some { result := FlowResult.show_form "pair_tv" {} none,
             state := st, hass := h }
  | none =>
    some { result := FlowResult.show_form "pair_tv" {} none,
           state := st, hass := h }

/-- Embedding of `async_step_pair_tv`.  With no handshake state yet, start pairing:
success stores the channel type and token and re-invokes the step (the
recursive call necessarily lands in `pair_tv_rest` with no input);
failure redisplays the `user` configuration form with `cant_connect`. -/
def async_step_pair_tv (o : Oracle) (st : FlowState) (h : Hass)
    (user_input : Option String) : Option StepOut :=
  if st.ch_type = none ∧ st.pairing_token = none then
    match st.data with
    | none => none
    | some _ =>
      match o.start_pair with
      | some pd =>
        pair_tv_rest o
          { st with ch_type := some pd.ch_type, pairing_token := some pd.token }
          h none
      | none =>
        some { result := FlowResult.show_form "user" { base := some "cant_connect" } none,
               state := st, hass := h }
  else
    pair_tv_rest o st h user_input

/-- Embedding of `async_step_user`: the core branching logic.  On submitted input the
last-seen input is stored as the schema defaults, the conflict-check
loop runs over all existing entries, and the no-error case branches on
the discovery-confirmation flag, the speaker-or-token validation path,
the import-warning flag, and the pairing path, exactly as in the
source. -/
def async_step_user (o : Oracle) (st : FlowState) (h : Hass)
    (user_input : Option ConfigData) : Option StepOut :=
  match user_input with
  | none =>
    some { result := FlowResult.show_form "user" {} none, state := st, hass := h }
  | some input =>
    if (conflict_errors h input).is_empty then
      if st.must_show_form = true ∧ st.source = Source.zeroconf then
        some { result := FlowResult.show_form "user" (conflict_errors h input) none,
               state := { st with user_schema := some input, must_show_form := false },
               hass := h }
      else if input.device_class = DeviceClass.speaker ∨ input.access_token ≠ "" then
        if o.validate_ha_config input.host input.access_token input.device_class = false then
          some { result := FlowResult.show_form "user"
                   { conflict_errors h input with base := some "cant_connect" } none,
                 state := { st with user_schema := some input }, hass := h }
        else
          some { result := (create_entry_if_unique o h input).1,
                 state := { st with user_schema := some input },
                 hass := (create_entry_if_unique o h input).2 }
      else if st.must_show_form = true ∧ st.source = Source.imported then
        some { result := FlowResult.show_form "user" (conflict_errors h input) none,
               state := { st with user_schema := some input, must_show_form := false },
               hass := h }
      else
        async_step_pair_tv o
          { st with user_schema := some input, data := some input } h none
    else
      some { result := FlowResult.show_form "user" (conflict_errors h input) none,
             state := { st with user_schema := some input }, hass := h }

/-- The entry update built inside the `async_step_import` loop:
`updated_name` carries the imported name when it differs from the
name of the entry, `updated_options` carries the imported volume step when it
differs from the one in the data of the entry; both are merged into
that data, and `updated_options` also into the options. -/
def merge_entry (entry : Entry) (cfg : ConfigData) (vs : Int) : Entry :=
  { data := { entry.data with
      name := if entry.data.name ≠ cfg.name then cfg.name else entry.data.name,
      volume_step := if entry.data.volume_step ≠ some vs then some vs
                     else entry.data.volume_step },
    options := if entry.data.volume_step ≠ some vs then some vs
               else entry.options }

/-- Embedding of `async_step_import`.  The loop over existing entries processes the
first entry whose host matches (ignoring port) and returns; it is
modelled with `List.find?`.  Accessing the required
`import_config[CONF_VOLUME_STEP]` key is fallible.  The entry update
performed through `async_update_entry` replaces the matched entry in
place. -/
def async_step_import (o : Oracle) (st : FlowState) (h : Hass)
    (cfg : ConfigData) : Option StepOut :=
  match h.entries.find? fun e => host_is_same e.data.host cfg.host with
  | some entry =>
    match cfg.volume_step with
    | none => none
    | some vs =>
      if entry.data.name ≠ cfg.name ∨ entry.data.volume_step ≠ some vs then
        some { result := FlowResult.abort "updated_entry",
               state := st,
               hass := { h with entries := h.entries.map fun e =>
                 if e = entry then merge_entry entry cfg vs else e } }
      else
        some { result := FlowResult.abort "already_setup", state := st, hass := h }
  | none =>
    async_step_user o { st with must_show_form := true } h (some cfg)

/-- The zeroconf discovery record: host, port, advertised name, and the
zeroconf service type. -/
structure DiscoveryInfo where
  host : String
  port : String
  name : String
  type : String
deriving DecidableEq

/-- Embedding of `async_step_zeroconf`.  The early `async_set_unique_id` call is host
framework code not under `src/`; modelled from the spec, it registers the
bare hostname as the provisional unique identifier of the flow.  Then the host
is rewritten to `host:port`, the flow aborts with `already_setup` when
any existing entry shares the host, and otherwise the advertised name is
truncated by `len(service type) + 1` trailing characters, the device
class is guessed by the device client, and the flow re-enters the `user`
step with the assembled input and `_must_show_form` set. -/
def async_step_zeroconf (o : Oracle) (st : FlowState) (h : Hass)
    (info : DiscoveryInfo) : Option StepOut :=
  if h.entries.any fun e =>
      host_is_same e.data.host (info.host ++ ":" ++ info.port) then
    some { result := FlowResult.abort "already_setup",
           state := { st with unique_id := some (host_head info.host) },
           hass := h }
  else
    async_step_user o
      { st with
        unique_id := some (host_head info.host),
        must_show_form := true } h
      (some { name := drop_last_chars info.name (info.type.data.length + 1),
              host := info.host ++ ":" ++ info.port,
              device_class := o.guess_device_type (info.host ++ ":" ++ info.port),
              access_token := "",
              volume_step := none })

/-- Modelled from the spec: `DEFAULT_VOLUME_STEP` lives in the
file `const.py` of the component, which is not under `src/`; the spec fixes the
default to 1. -/
def DEFAULT_VOLUME_STEP : Int := 1

/-- The single field of the options form: its default and the declared
`vol.Range` bounds. -/
structure OptionsFormField where
  default : Int
  min : Int
  max : Int
deriving DecidableEq

/-- Outcome of the `init` step of the options sub-flow. -/
inductive OptionsResult where
  | show_form (field : OptionsFormField)
  | create_entry (title : String) (volume_step : Int)
deriving DecidableEq

/-- Embedding of `VizioOptionsConfigFlow.async_step_init`: with input, create the
options entry from the submitted input; without, show the one-field form
whose default is the current `volume_step` of the entry or the default, with
declared bounds 1..10.  No device-client call is made (the function does
not take an `Oracle`). -/
def options_step_init (entry : Entry) (user_input : Option Int) : OptionsResult :=
  match user_input with
  | some v => OptionsResult.create_entry "" v
  | none =>
    OptionsResult.show_form
      { default := entry.options.getD DEFAULT_VOLUME_STEP, min := 1, max := 10 }

/-- Modelled from the spec: the host framework applies an options-flow
`create_entry` result by replacing the options record of the entry wholesale
with the submitted data. -/
def apply_options_result (entry : Entry) (r : OptionsResult) : Entry :=
  match r with
  | OptionsResult.create_entry _ v => { entry with options := some v }
  | OptionsResult.show_form _ => entry

/-- No two entries share a host, compared ignoring port. -/
abbrev hosts_unique (l : List Entry) : Prop :=
  l.Pairwise fun a b => host_is_same a.data.host b.data.host = false

/-- No two entries share a name. -/
abbrev names_unique (l : List Entry) : Prop :=
  l.Pairwise fun a b => a.data.name ≠ b.data.name

/-- The pending config `d` passes the `user`-step conflict check against
the store `h`: the error dict built by the conflict loop is empty. -/
def conflict_freeb (h : Hass) (d : ConfigData) : Bool :=
  (conflict_errors h d).is_empty

/-- Reachable entry-store states.  The store starts empty; it changes
only through step invocations of the flow.  Sessions interleave: between
two invocations of one session, other sessions may run and change the
store, so each constructor admits an arbitrary per-session flow state
against the current store.  In particular `complete_step` carries no
conflict-check hypothesis, because `_create_entry_if_unique` rechecks
only the unique identifier, not hosts or names. -/
inductive Reachable : Hass → Prop where
  | init : Reachable {}
  | user_step {h : Hass} (o : Oracle) (st : FlowState) (inp : Option ConfigData)
      (out : StepOut) : Reachable h → async_step_user o st h inp = some out →
      Reachable out.hass
  | import_step {h : Hass} (o : Oracle) (st : FlowState) (cfg : ConfigData)
      (out : StepOut) : Reachable h → async_step_import o st h cfg = some out →
      Reachable out.hass
  | zeroconf_step {h : Hass} (o : Oracle) (st : FlowState) (info : DiscoveryInfo)
      (out : StepOut) : Reachable h → async_step_zeroconf o st h info = some out →
      Reachable out.hass
  | pair_step {h : Hass} (o : Oracle) (st : FlowState) (pin : Option String)
      (out : StepOut) : Reachable h → async_step_pair_tv o st h pin = some out →
      Reachable out.hass
  | complete_step {h : Hass} (o : Oracle) (st : FlowState)
      (sid : String) (out : StepOut) : Reachable h →
      pairing_complete_step o st h sid = some out → Reachable out.hass

/-- A concrete device-client oracle used for concrete runs: every device
validates, the unique id is the host string, and pairing calls fail. -/
def oracleA : Oracle :=
  { validate_ha_config := fun _ _ _ => true,
    get_unique_id := fun host _ _ => host,
    start_pair := none,
    pair := fun _ _ _ => none,
    guess_device_type := fun _ => DeviceClass.tv }

/-- Concrete speaker submission: name `X`, host `A`. -/
def inputX : ConfigData :=
  { name := "X", host := "A", device_class := DeviceClass.speaker }

/-- Concrete speaker submission: name `Y`, host `B`. -/
def inputY : ConfigData :=
  { name := "Y", host := "B", device_class := DeviceClass.speaker }

/-- Concrete imported config: host `A` (matching the entry named `X`),
but named `Y` (the name of the other entry). -/
def importCfg : ConfigData :=
  { name := "Y", host := "A", device_class := DeviceClass.speaker,
    volume_step := some 1 }

/-- Store after creating the entry for `inputX`. -/
def hassX : Hass := { entries := [{ data := inputX }], claimed_ids := ["A"] }

/-- Store after creating the entries for `inputX` and `inputY`. -/
def hassXY : Hass :=
  { entries := [{ data := inputX }, { data := inputY }],
    claimed_ids := ["A", "B"] }

/-- The entry for `inputX` after the import merge renamed it to `Y` and
set its volume step. -/
def mergedX : Entry :=
  { data := { name := "Y", host := "A", device_class := DeviceClass.speaker,
              access_token := "", volume_step := some 1 },
    options := some 1 }

/-- Store after the import merge: two distinct entries both named `Y`. -/
def badHass : Hass :=
  { entries := [mergedX, { data := inputY }], claimed_ids := ["A", "B"] }

/-- Outcome of submitting `inputX` to the user step on an empty store. -/
def step1_out : StepOut :=
  { result := FlowResult.create_entry "X" inputX,
    state := { user_schema := some inputX }, hass := hassX }

/-- Outcome of submitting `inputY` to the user step on `hassX`. -/
def step2_out : StepOut :=
  { result := FlowResult.create_entry "Y" inputY,
    state := { user_schema := some inputY }, hass := hassXY }

/-- Outcome of importing `importCfg` on `hassXY`. -/
def step3_out : StepOut :=
  { result := FlowResult.abort "updated_entry", state := {}, hass := badHass }

/-- Store with one entry whose host and name both collide with
`inputC2` below (hosts differ only in port). -/
def hassC2 : Hass :=
  { entries := [{ data := { name := "Foo", host := "1.2.3.4:100",
                            device_class := DeviceClass.speaker } }],
    claimed_ids := ["1.2.3.4:100"] }

/-- Submission colliding with `hassC2` on host (different port) and on
name simultaneously. -/
def inputC2 : ConfigData :=
  { name := "Foo", host := "1.2.3.4:200", device_class := DeviceClass.speaker }

/-- Concrete TV submission without an access token. -/
def inputTV : ConfigData :=
  { name := "T", host := "C", device_class := DeviceClass.tv }

/-- A device-client oracle whose pairing calls succeed. -/
def oracleB : Oracle :=
  { validate_ha_config := fun _ _ _ => true,
    get_unique_id := fun host _ _ => host,
    start_pair := some { ch_type := "ch", token := "tok" },
    pair := fun _ _ _ => some "authtok",
    guess_device_type := fun _ => DeviceClass.tv }

/-- Pending TV config stashed before pairing. -/
def dTV : ConfigData :=
  { name := "TV1", host := "H", device_class := DeviceClass.tv }

/-- Embedding of `dTV` after pairing stored the returned access token. -/
def dTV2 : ConfigData := { dTV with access_token := "authtok" }

/-- Flow state mid-pairing: pending config stashed, handshake state
populated by a successful `start_pair`. -/
def stP : FlowState :=
  { data := some dTV, ch_type := some "ch", pairing_token := some "tok" }

/-- Flow state after a successful `pair` call and the pairing-complete
confirmation form. -/
def stP2 : FlowState := { stP with data := some dTV2, must_show_form := false }

/-- Flow state of a discovery-triggered session. -/
def stZ : FlowState := { source := Source.zeroconf }

/-- A well-formed discovery record: the advertised name carries the
service-type suffix. -/
def infoZ : DiscoveryInfo :=
  { host := "5.6.7.8", port := "7345", name := "TV.x", type := "x" }

/-- A discovery record whose advertised name does not end with the
service-type suffix and is shorter than the suffix. -/
def infoBad : DiscoveryInfo :=
  { host := "5.6.7.9", port := "7345", name := "ab", type := "xyz" }

/-- Store already holding an entry matching the host of `infoZ` on
a different port. -/
def hassZ : Hass :=
  { entries := [{ data := { name := "Z", host := "5.6.7.8:9000",
                            device_class := DeviceClass.tv } }],
    claimed_ids := ["5.6.7.8:9000"] }

/-- A device-client oracle for the interleaved-sessions schedule: the
unique identifier depends on the access token (which the spec interface
`computeUniqueId(host, token, deviceClass)` permits) and pairing calls
succeed. -/
def oracleC : Oracle :=
  { validate_ha_config := fun _ _ _ => true,
    get_unique_id := fun host tok _ => host ++ tok,
    start_pair := some { ch_type := "ch", token := "tok" },
    pair := fun _ _ _ => some "authtok",
    guess_device_type := fun _ => DeviceClass.tv }

/-- TV submission for host `H`, stashed by session A. -/
def inputTVH : ConfigData :=
  { name := "TVset", host := "H", device_class := DeviceClass.tv }

/-- Speaker submission for the same host `H`, created by session B
while session A is paused at the PIN form. -/
def inputSpkH : ConfigData :=
  { name := "Spk", host := "H", device_class := DeviceClass.speaker }

/-- Flow state of session A after its `user`-step invocation stashed
`inputTVH` and `start_pair` populated the handshake state. -/
def stA1 : FlowState :=
  { user_schema := some inputTVH, data := some inputTVH,
    ch_type := some "ch", pairing_token := some "tok" }

/-- Store after session B created the speaker entry for host `H`. -/
def hassSpk : Hass :=
  { entries := [{ data := inputSpkH }], claimed_ids := ["H"] }

/-- Pending config of session A after pairing stored the access token. -/
def inputTVH2 : ConfigData := { inputTVH with access_token := "authtok" }

/-- Flow state of session A after its successful `pair_tv` invocation
showed the pairing-complete form. -/
def stA2 : FlowState := { stA1 with data := some inputTVH2 }

/-- Store after session A finalized: two distinct entries with host `H`
(their unique ids differ because the ids depend on the token). -/
def hassHH : Hass :=
  { entries := [{ data := inputSpkH }, { data := inputTVH2 }],
    claimed_ids := ["H", "Hauthtok"] }

theorem conflict_freeb_iff (h : Hass) (d : ConfigData) :
    conflict_freeb h d = true ↔
      ∀ e ∈ h.entries,
        host_is_same e.data.host d.host = false ∧ e.data.name ≠ d.name := by
  unfold conflict_freeb conflict_errors Errors.is_empty
  constructor
  · intro hc e he
    by_cases h1 : h.entries.any fun e => host_is_same e.data.host d.host
    · simp [h1] at hc
    · by_cases h2 : h.entries.any fun e => e.data.name == d.name
      · simp [h1, h2] at hc
      · simp only [List.any_eq_true, not_exists, not_and] at h1 h2
        push_neg at h1 h2
        constructor
        · have := h1 e he
          simpa using this
        · have := h2 e he
          simpa using this
  · intro hall
    have h1 : (h.entries.any fun e => host_is_same e.data.host d.host) = false := by
      simp only [List.any_eq_false]
      intro e he
      simp [(hall e he).1]
    have h2 : (h.entries.any fun e => e.data.name == d.name) = false := by
      simp only [List.any_eq_false]
      intro e he
      simp [(hall e he).2]
    simp [h1, h2]

theorem conflict_errors_eq_empty (h : Hass) (d : ConfigData)
    (hc : conflict_freeb h d = true) : conflict_errors h d = {} := by
  unfold conflict_freeb conflict_errors Errors.is_empty at *
  by_cases h1 : h.entries.any fun e => host_is_same e.data.host d.host
  · simp [h1] at hc
  · by_cases h2 : h.entries.any fun e => e.data.name == d.name
    · simp [h1, h2] at hc
    · simp [h1, h2]

theorem create_entry_hosts_unique (o : Oracle) (h : Hass) (d : ConfigData)
    (hu : hosts_unique h.entries)
    (hc : ∀ e ∈ h.entries, host_is_same e.data.host d.host = false) :
    hosts_unique (create_entry_if_unique o h d).2.entries := by
  unfold create_entry_if_unique
  split
  · exact hu
  · simp only [hosts_unique, List.pairwise_append]
    exact ⟨hu, List.pairwise_singleton _ _, by
      intro a ha b hb
      simp only [List.mem_singleton] at hb
      subst hb
      exact hc a ha⟩

theorem create_entry_names_unique (o : Oracle) (h : Hass) (d : ConfigData)
    (hu : names_unique h.entries)
    (hc : ∀ e ∈ h.entries, e.data.name ≠ d.name) :
    names_unique (create_entry_if_unique o h d).2.entries := by
  unfold create_entry_if_unique
  split
  · exact hu
  · simp only [names_unique, List.pairwise_append]
    exact ⟨hu, List.pairwise_singleton _ _, by
      intro a ha b hb
      simp only [List.mem_singleton] at hb
      subst hb
      exact hc a ha⟩

theorem pairing_complete_step_show_hass (o : Oracle) (st : FlowState) (h : Hass)
    (sid : String) (out : StepOut) (hms : st.must_show_form = true)
    (hout : pairing_complete_step o st h sid = some out) : out.hass = h := by
  unfold pairing_complete_step at hout
  cases hd : st.data with
  | none => rw [hd] at hout; exact absurd hout (by simp)
  | some d =>
    rw [hd, hms] at hout
    simp only [Bool.true_eq_false, if_false, Option.some.injEq] at hout
    subst hout
    rfl

theorem pair_tv_rest_hass (o : Oracle) (st : FlowState) (h : Hass)
    (inp : Option String) (out : StepOut)
    (hout : pair_tv_rest o st h inp = some out) : out.hass = h := by
  cases inp with
  | none =>
    simp only [pair_tv_rest, Option.some.injEq] at hout
    subst hout
    rfl
  | some pin =>
    simp only [pair_tv_rest] at hout
    by_cases hpin : pin = ""
    · simp only [hpin, ne_eq, not_true_eq_false, if_false, Option.some.injEq] at hout
      subst hout
      rfl
    · simp only [ne_eq, hpin, not_false_eq_true, if_true] at hout
      cases hd : st.data with
      | none => simp [hd] at hout
      | some d =>
        simp only [hd] at hout
        cases hp : o.pair st.ch_type st.pairing_token pin with
        | none =>
          simp only [hp, Option.some.injEq] at hout
          subst hout
          rfl
        | some tok =>
          simp only [hp] at hout
          unfold async_step_pairing_complete_import async_step_pairing_complete at hout
          split at hout
          · exact pairing_complete_step_show_hass _ _ _ _ _ rfl hout
          · exact pairing_complete_step_show_hass _ _ _ _ _ rfl hout

theorem pair_tv_hass (o : Oracle) (st : FlowState) (h : Hass)
    (inp : Option String) (out : StepOut)
    (hout : async_step_pair_tv o st h inp = some out) : out.hass = h := by
  unfold async_step_pair_tv at hout
  split at hout
  · cases hd : st.data with
    | none => rw [hd] at hout; exact absurd hout (by simp)
    | some d =>
      rw [hd] at hout
      cases hp : o.start_pair with
      | some pd =>
        rw [hp] at hout
        exact pair_tv_rest_hass _ _ _ _ _ hout
      | none =>
        rw [hp] at hout
        simp only [Option.some.injEq] at hout
        subst hout
        rfl
  · exact pair_tv_rest_hass _ _ _ _ _ hout

theorem pair_tv_rest_none_state (o : Oracle) (st : FlowState) (h : Hass)
    (out : StepOut) (hout : pair_tv_rest o st h none = some out) :
    out.state = st := by
  simp only [pair_tv_rest, Option.some.injEq] at hout
  subst hout
  rfl

theorem pair_tv_state_data (o : Oracle) (st : FlowState) (h : Hass)
    (out : StepOut) (hout : async_step_pair_tv o st h none = some out) :
    out.state.data = st.data := by
  simp only [async_step_pair_tv] at hout
  split at hout
  · cases hd : st.data with
    | none => simp [hd] at hout
    | some d =>
      simp only [hd] at hout
      cases hp : o.start_pair with
      | some pd =>
        simp only [hp] at hout
        rw [pair_tv_rest_none_state _ _ _ _ hout]
      | none =>
        simp only [hp, Option.some.injEq] at hout
        subst hout
        exact hd
  · rw [pair_tv_rest_none_state _ _ _ _ hout]

theorem hosts_unique_map (l : List Entry) (f : Entry → Entry)
    (hf : ∀ e, (f e).data.host = e.data.host) (hu : hosts_unique l) :
    hosts_unique (l.map f) := by
  unfold hosts_unique at *
  rw [List.pairwise_map]
  refine hu.imp ?_
  intro a b hab
  rw [hf a, hf b]
  exact hab

theorem user_step_hosts_unique (o : Oracle) (st : FlowState) (h : Hass)
    (inp : Option ConfigData) (out : StepOut)
    (hout : async_step_user o st h inp = some out)
    (hu : hosts_unique h.entries) : hosts_unique out.hass.entries := by
  cases inp with
  | none =>
    simp only [async_step_user, Option.some.injEq] at hout
    subst hout
    exact hu
  | some input =>
    simp only [async_step_user] at hout
    split at hout
    · split at hout
      · simp only [Option.some.injEq] at hout
        subst hout
        exact hu
      · split at hout
        · split at hout
          · simp only [Option.some.injEq] at hout
            subst hout
            exact hu
          · rename_i hce _ _ _
            simp only [Option.some.injEq] at hout
            subst hout
            exact create_entry_hosts_unique o h input hu
              (fun e he => ((conflict_freeb_iff h input).1 hce e he).1)
        · split at hout
          · simp only [Option.some.injEq] at hout
            subst hout
            exact hu
          · rw [pair_tv_hass _ _ _ _ _ hout]
            exact hu
    · simp only [Option.some.injEq] at hout
      subst hout
      exact hu

theorem import_step_hosts_unique (o : Oracle) (st : FlowState) (h : Hass)
    (cfg : ConfigData) (out : StepOut)
    (hout : async_step_import o st h cfg = some out)
    (hu : hosts_unique h.entries) : hosts_unique out.hass.entries := by
  simp only [async_step_import] at hout
  cases hf : h.entries.find? fun e => host_is_same e.data.host cfg.host with
  | none =>
    simp only [hf] at hout
    exact user_step_hosts_unique _ _ _ _ _ hout hu
  | some entry =>
    simp only [hf] at hout
    cases hvs : cfg.volume_step with
    | none => simp [hvs] at hout
    | some vs =>
      simp only [hvs] at hout
      split at hout
      · simp only [Option.some.injEq] at hout
        subst hout
        apply hosts_unique_map _ _ _ hu
        intro e
        by_cases he : e = entry
        · simp [he, merge_entry]
        · simp [he]
      · simp only [Option.some.injEq] at hout
        subst hout
        exact hu

theorem zeroconf_step_hosts_unique (o : Oracle) (st : FlowState) (h : Hass)
    (info : DiscoveryInfo) (out : StepOut)
    (hout : async_step_zeroconf o st h info = some out)
    (hu : hosts_unique h.entries) : hosts_unique out.hass.entries := by
  simp only [async_step_zeroconf] at hout
  split at hout
  · simp only [Option.some.injEq] at hout
    subst hout
    exact hu
  · exact user_step_hosts_unique _ _ _ _ _ hout hu

theorem complete_step_hosts_unique (o : Oracle) (st : FlowState) (h : Hass)
    (d : ConfigData) (sid : String) (out : StepOut)
    (hd : st.data = some d) (hcf : conflict_freeb h d = true)
    (hout : pairing_complete_step o st h sid = some out)
    (hu : hosts_unique h.entries) : hosts_unique out.hass.entries := by
  unfold pairing_complete_step at hout
  simp only [hd] at hout
  split at hout
  · simp only [Option.some.injEq] at hout
    subst hout
    exact create_entry_hosts_unique o h d hu
      (fun e he => ((conflict_freeb_iff h d).1 hcf e he).1)
  · simp only [Option.some.injEq] at hout
    subst hout
    exact hu

/-- The `user` step changes the pending config only on the pairing
branch, which is guarded by the conflict-check loop: whenever the step
stashed new pending data, the stashed input passed the conflict check
against the store it ran on.  The check is against the stash-time store
only; no recheck happens at pairing completion. -/
theorem user_step_stashes_conflict_free (o : Oracle) (st : FlowState) (h : Hass)
    (input : ConfigData) (out : StepOut)
    (hout : async_step_user o st h (some input) = some out)
    (hch : out.state.data ≠ st.data) :
    out.state.data = some input ∧ conflict_freeb h input = true := by
  simp only [async_step_user] at hout
  split at hout
  · split at hout
    · simp only [Option.some.injEq] at hout
      subst hout
      exact absurd rfl hch
    · split at hout
      · split at hout
        · simp only [Option.some.injEq] at hout
          subst hout
          exact absurd rfl hch
        · rename_i hce _ _ _
          simp only [Option.some.injEq] at hout
          subst hout
          exact absurd rfl hch
      · split at hout
        · simp only [Option.some.injEq] at hout
          subst hout
          exact absurd rfl hch
        · rename_i hce _ _ _
          rw [pair_tv_state_data _ _ _ _ hout]
          exact ⟨rfl, hce⟩
  · simp only [Option.some.injEq] at hout
    subst hout
    exact absurd rfl hch

/-- C1 (amended): neither uniqueness is an unconditional invariant of
the store; what holds is per-operation preservation.  Every step
invocation that runs the conflict-check loop in the same invocation
preserves host uniqueness — the `user` step (including its direct
finalization), the import step and the zeroconf step — and the `pair_tv`
step never changes the store; finalization through
`_create_entry_if_unique` preserves host and name uniqueness whenever
the pending config is conflict-free against the completion-time store.
Finalization itself rechecks only the unique identifier, so an
interleaved session can persist a duplicate host, and the
import-triggered merge can duplicate a name (see the counterexample). -/
theorem C1_amended_uniqueness :
    (∀ (o : Oracle) (st : FlowState) (h : Hass) (inp : Option ConfigData)
       (out : StepOut), async_step_user o st h inp = some out →
       hosts_unique h.entries → hosts_unique out.hass.entries) ∧
    (∀ (o : Oracle) (st : FlowState) (h : Hass) (cfg : ConfigData)
       (out : StepOut), async_step_import o st h cfg = some out →
       hosts_unique h.entries → hosts_unique out.hass.entries) ∧
    (∀ (o : Oracle) (st : FlowState) (h : Hass) (info : DiscoveryInfo)
       (out : StepOut), async_step_zeroconf o st h info = some out →
       hosts_unique h.entries → hosts_unique out.hass.entries) ∧
    (∀ (o : Oracle) (st : FlowState) (h : Hass) (pin : Option String)
       (out : StepOut), async_step_pair_tv o st h pin = some out →
       out.hass = h) ∧
    (∀ (o : Oracle) (st : FlowState) (h : Hass) (d : ConfigData) (sid : String)
       (out : StepOut), st.data = some d → conflict_freeb h d = true →
       pairing_complete_step o st h sid = some out →
       hosts_unique h.entries → hosts_unique out.hass.entries) ∧
    (∀ (o : Oracle) (h : Hass) (d : ConfigData), conflict_freeb h d = true →
      names_unique h.entries →
      names_unique (create_entry_if_unique o h d).2.entries) := by
  refine ⟨user_step_hosts_unique, import_step_hosts_unique,
    zeroconf_step_hosts_unique, pair_tv_hass, complete_step_hosts_unique, ?_⟩
  intro o h d hcf hn
  exact create_entry_names_unique o h d hn
    (fun e he => ((conflict_freeb_iff h d).1 hcf e he).2)

/-- Witness for C1 (amended): a concrete conflict-checked user-step
creation preserves host uniqueness, and a concrete conflict-free
finalization preserves name uniqueness. -/
theorem C1_amended_uniqueness_witness :
    hosts_unique hassX.entries ∧
    names_unique (create_entry_if_unique oracleA hassX inputY).2.entries := by
  constructor
  · exact C1_amended_uniqueness.1 oracleA {} {} (some inputX) step1_out
      (by decide) List.Pairwise.nil
  · exact C1_amended_uniqueness.2.2.2.2.2 oracleA hassX inputY
      (by decide) (by decide)

/-- C1 counterexample: both halves of the claimed invariant fail on
reachable stores.  Names: creating entries for (name X, host A) and
(name Y, host B) through the user step and then importing a config with
host A and name Y renames the first entry to Y with no name check
against the others, reaching a store with two entries named Y.
Hosts: the user step of session A stashes a TV config for host H on the
empty store and pauses at the PIN form (state `stA1`, store unchanged);
session B then creates a speaker entry for host H; the `pair_tv`
invocation of session A succeeds (state `stA2`, store unchanged) and its
pairing-complete invocation finalizes without any host recheck — the
unique ids differ because they depend on the token — reaching a store
with two entries for host H.  Each listed equation is the actual step
invocation of that schedule. -/
theorem C1_counterexample :
    (Reachable badHass ∧ ¬ names_unique badHass.entries) ∧
    (async_step_user oracleC {} {} (some inputTVH) =
       some { result := FlowResult.show_form "pair_tv" {} none,
              state := stA1, hass := {} } ∧
     async_step_user oracleC {} {} (some inputSpkH) =
       some { result := FlowResult.create_entry "Spk" inputSpkH,
              state := { user_schema := some inputSpkH }, hass := hassSpk } ∧
     async_step_pair_tv oracleC stA1 hassSpk (some "1234") =
       some { result := FlowResult.show_form "pairing_complete" {} (some "authtok"),
              state := stA2, hass := hassSpk } ∧
     pairing_complete_step oracleC stA2 hassSpk "pairing_complete" =
       some { result := FlowResult.create_entry "TVset" inputTVH2,
              state := stA2, hass := hassHH } ∧
     Reachable hassHH ∧ ¬ hosts_unique hassHH.entries) := by
  constructor
  · constructor
    · exact Reachable.import_step oracleA {} importCfg step3_out
        (Reachable.user_step oracleA {} (some inputY) step2_out
          (Reachable.user_step oracleA {} (some inputX) step1_out Reachable.init
            (by decide))
          (by decide))
        (by decide)
    · unfold names_unique badHass mergedX inputY
      intro hp
      have := (List.pairwise_cons.1 hp).1 _ (List.mem_singleton.2 rfl)
      exact this rfl
  · refine ⟨by decide, by decide, by decide, by decide, ?_, by decide⟩
    exact Reachable.complete_step oracleC stA2 "pairing_complete"
      { result := FlowResult.create_entry "TVset" inputTVH2,
        state := stA2, hass := hassHH }
      (Reachable.user_step oracleC {} (some inputSpkH)
        { result := FlowResult.create_entry "Spk" inputSpkH,
          state := { user_schema := some inputSpkH }, hass := hassSpk }
        Reachable.init (by decide))
      (by decide)

/-- C2: in step `user`, the conflict check visits all entries:
`host_exists` is flagged iff the host of some existing entry equals the input
host ignoring port, `name_exists` iff the name of some existing entry equals
the input name exactly; the flags are independent, and whenever any
conflict exists the `user` form is redisplayed carrying the full error
dict (both flags together when both fire) and no entry is created. -/
theorem C2_user_conflict_check (o : Oracle) (st : FlowState) (h : Hass)
    (input : ConfigData) :
    ((conflict_errors h input).host = some "host_exists" ↔
      ∃ e ∈ h.entries, host_is_same e.data.host input.host = true) ∧
    ((conflict_errors h input).name = some "name_exists" ↔
      ∃ e ∈ h.entries, e.data.name = input.name) ∧
    ((conflict_errors h input).is_empty = false →
      async_step_user o st h (some input) =
        some { result := FlowResult.show_form "user" (conflict_errors h input) none,
               state := { st with user_schema := some input }, hass := h }) := by
  refine ⟨?_, ?_, ?_⟩
  · unfold conflict_errors
    by_cases ha : h.entries.any fun e => host_is_same e.data.host input.host
    · simp only [ha, if_true]
      simp only [List.any_eq_true] at ha
      simpa using ha
    · simp only [ha, if_false]
      simp only [List.any_eq_true] at ha
      push_neg at ha
      simpa using ha
  · unfold conflict_errors
    by_cases ha : h.entries.any fun e => e.data.name == input.name
    · simp only [ha, if_true]
      simp only [List.any_eq_true] at ha
      simpa using ha
    · simp only [ha, if_false]
      simp only [List.any_eq_true] at ha
      push_neg at ha
      simpa using ha
  · intro hne
    simp only [async_step_user]
    rw [if_neg (by simp [hne])]

/-- Witness for C2: a submission colliding on host (ports differ) and on
name at once redisplays the form with both errors and creates nothing. -/
theorem C2_user_conflict_check_witness :
    async_step_user oracleA {} hassC2 (some inputC2) =
      some { result := FlowResult.show_form "user" (conflict_errors hassC2 inputC2) none,
             state := { user_schema := some inputC2 }, hass := hassC2 } ∧
    (conflict_errors hassC2 inputC2).host = some "host_exists" ∧
    (conflict_errors hassC2 inputC2).name = some "name_exists" :=
  ⟨(C2_user_conflict_check oracleA {} hassC2 inputC2).2.2 (by decide),
   by decide, by decide⟩

/-- C5: with no conflict errors, outside the discovery-confirmation
case, and with a speaker device class or a non-empty supplied access
token, the flow validates reachability through the device client; a
failed validation redisplays the `user` form with `cant_connect` and
creates nothing, and a successful one proceeds directly to finalization
(no pairing step, pairing state untouched). -/
theorem C5_user_validation (o : Oracle) (st : FlowState) (h : Hass)
    (input : ConfigData)
    (hce : (conflict_errors h input).is_empty = true)
    (hflag : ¬ (st.must_show_form = true ∧ st.source = Source.zeroconf))
    (hcls : input.device_class = DeviceClass.speaker ∨ input.access_token ≠ "") :
    (o.validate_ha_config input.host input.access_token input.device_class = false →
      async_step_user o st h (some input) =
        some { result := FlowResult.show_form "user"
                 { base := some "cant_connect" } none,
               state := { st with user_schema := some input }, hass := h }) ∧
    (o.validate_ha_config input.host input.access_token input.device_class = true →
      async_step_user o st h (some input) =
        some { result := (create_entry_if_unique o h input).1,
               state := { st with user_schema := some input },
               hass := (create_entry_if_unique o h input).2 }) := by
  constructor
  · intro hv
    simp only [async_step_user]
    rw [if_pos hce, if_neg hflag, if_pos hcls, if_pos hv,
      conflict_errors_eq_empty h input hce]
  · intro hv
    simp only [async_step_user]
    rw [if_pos hce, if_neg hflag, if_pos hcls, if_neg (by simp [hv])]

/-- Witness for C5: a conflict-free speaker submission against a
reachable device is finalized directly. -/
theorem C5_user_validation_witness :
    async_step_user oracleA {} {} (some inputX) =
      some { result := (create_entry_if_unique oracleA {} inputX).1,
             state := { user_schema := some inputX },
             hass := (create_entry_if_unique oracleA {} inputX).2 } :=
  (C5_user_validation oracleA {} {} inputX (by decide) (by decide)
    (Or.inl rfl)).2 rfl

/-- C7: finalization computes the unique identifier through the device
client from host, access token and device class; when the identifier is
already claimed by an entry or an in-progress flow, the flow aborts with
`already_configured` and the store is unchanged; otherwise exactly one
entry is appended, with the pending config as data and its name as
title, and the identifier becomes claimed. -/
theorem C7_finalization (o : Oracle) (h : Hass) (input : ConfigData) :
    (o.get_unique_id input.host input.access_token input.device_class ∈ h.claimed_ids →
      create_entry_if_unique o h input = (FlowResult.abort "already_configured", h)) ∧
    (o.get_unique_id input.host input.access_token input.device_class ∉ h.claimed_ids →
      create_entry_if_unique o h input =
        (FlowResult.create_entry input.name input,
         { entries := h.entries ++ [{ data := input }],
           claimed_ids := h.claimed_ids ++
             [o.get_unique_id input.host input.access_token input.device_class] })) := by
  constructor
  · intro hm
    unfold create_entry_if_unique
    rw [if_pos hm]
  · intro hm
    unfold create_entry_if_unique
    rw [if_neg hm]

/-- Witness for C7: both finalization outcomes at concrete inputs: the
id `A` is already claimed in `hassX`, the id `B` is not. -/
theorem C7_finalization_witness :
    create_entry_if_unique oracleA hassX inputX =
      (FlowResult.abort "already_configured", hassX) ∧
    create_entry_if_unique oracleA hassX inputY =
      (FlowResult.create_entry "Y" inputY,
       { entries := hassX.entries ++ [{ data := inputY }],
         claimed_ids := hassX.claimed_ids ++ ["B"] }) :=
  ⟨(C7_finalization oracleA hassX inputX).1 (by decide),
   (C7_finalization oracleA hassX inputY).2 (by decide)⟩

/-- C9: the `init` step of the options sub-flow shows a single `volume_step`
field defaulting to the current value of the entry (or the default 1) with
declared integer bounds 1..10, and on submission creates an options
payload that replaces the options record of the entry wholesale; no
device-client oracle is involved. -/
theorem C9_options_flow (entry : Entry) (v : Int) :
    options_step_init entry none =
      OptionsResult.show_form
        { default := entry.options.getD DEFAULT_VOLUME_STEP, min := 1, max := 10 } ∧
    options_step_init entry (some v) = OptionsResult.create_entry "" v ∧
    apply_options_result entry (options_step_init entry (some v)) =
      { entry with options := some v } :=
  ⟨rfl, rfl, rfl⟩

/-- C3: import with a host matching an existing entry (ignoring port):
when the imported name or volume step differs, the matched entry is
replaced by its merge with the changed fields and the flow aborts with
`updated_entry`; when neither differs it aborts with `already_setup` and
the store is untouched; in both cases the number of entries is
unchanged. -/
theorem C3_import_merge (o : Oracle) (st : FlowState) (h : Hass)
    (cfg : ConfigData) (entry : Entry) (vs : Int)
    (hfind : (h.entries.find? fun e => host_is_same e.data.host cfg.host) = some entry)
    (hvs : cfg.volume_step = some vs) :
    ((entry.data.name ≠ cfg.name ∨ entry.data.volume_step ≠ some vs) →
      async_step_import o st h cfg =
        some { result := FlowResult.abort "updated_entry",
               state := st,
               hass := { h with entries := h.entries.map fun e =>
                 if e = entry then merge_entry entry cfg vs else e } } ∧
      (h.entries.map fun e =>
        if e = entry then merge_entry entry cfg vs else e).length =
        h.entries.length) ∧
    (entry.data.name = cfg.name ∧ entry.data.volume_step = some vs →
      async_step_import o st h cfg =
        some { result := FlowResult.abort "already_setup", state := st,
               hass := h }) := by
  constructor
  · intro hdiff
    constructor
    · simp only [async_step_import, hfind, hvs]
      rw [if_pos hdiff]
    · exact List.length_map _ _
  · intro heq
    simp only [async_step_import, hfind, hvs]
    rw [if_neg (by push_neg; exact heq)]

/-- Witness for C3: importing `importCfg` over `hassXY` updates the
matched entry in place and aborts with `updated_entry`; the store keeps
its two entries. -/
theorem C3_import_merge_witness :
    async_step_import oracleA {} hassXY importCfg =
      some { result := FlowResult.abort "updated_entry", state := {},
             hass := badHass } ∧
    badHass.entries.length = hassXY.entries.length := by
  have hm := (C3_import_merge oracleA {} hassXY importCfg { data := inputX } 1
    (by decide) rfl).1 (Or.inl (by decide))
  refine ⟨?_, by decide⟩
  rw [hm.1]
  decide

/-- C4: with handshake state present and a non-empty PIN, a successful
`pair` call stores the returned access token into the pending config and
shows exactly one pairing-complete confirmation form
(`pairing_complete_import` for Import triggers, `pairing_complete`
otherwise) without touching the store; the next invocation of the
pairing-complete step finalizes, creating exactly one entry carrying
that access token. -/
theorem C4_pairing_success (o : Oracle) (st : FlowState) (h : Hass)
    (pin : String) (d : ConfigData) (auth : String)
    (hguard : ¬ (st.ch_type = none ∧ st.pairing_token = none))
    (hpin : pin ≠ "")
    (hd : st.data = some d)
    (hpair : o.pair st.ch_type st.pairing_token pin = some auth) :
    async_step_pair_tv o st h (some pin) =
      some { result := FlowResult.show_form
               (if st.source = Source.imported then "pairing_complete_import"
                else "pairing_complete") {} (some auth),
             state := { st with
                        data := some { d with access_token := auth },
                        must_show_form := false },
             hass := h } ∧
    (∀ sid : String,
      o.get_unique_id d.host auth d.device_class ∉ h.claimed_ids →
      pairing_complete_step o
        { st with data := some { d with access_token := auth },
                  must_show_form := false } h sid =
        some { result := FlowResult.create_entry d.name
                 { d with access_token := auth },
               state := { st with
                          data := some { d with access_token := auth },
                          must_show_form := false },
               hass := { entries := h.entries ++
                           [{ data := { d with access_token := auth } }],
                         claimed_ids := h.claimed_ids ++
                           [o.get_unique_id d.host auth d.device_class] } }) := by
  constructor
  · simp only [async_step_pair_tv]
    rw [if_neg hguard]
    simp only [pair_tv_rest, ne_eq, hpin, not_false_eq_true, if_true, hd, hpair]
    by_cases hs : st.source = Source.imported
    · simp [async_step_pairing_complete_import, pairing_complete_step, hs]
    · simp [async_step_pairing_complete, pairing_complete_step, hs]
  · intro sid hnotin
    simp only [pairing_complete_step, create_entry_if_unique]
    rw [if_neg hnotin]
    simp

/-- Witness for C4 at a concrete successful pairing run: the PIN `1234`
yields the token `authtok`, one `pairing_complete` form, then exactly
one created entry carrying `authtok`. -/
theorem C4_pairing_success_witness :
    async_step_pair_tv oracleB stP {} (some "1234") =
      some { result := FlowResult.show_form "pairing_complete" {} (some "authtok"),
             state := stP2, hass := {} } ∧
    pairing_complete_step oracleB stP2 {} "pairing_complete" =
      some { result := FlowResult.create_entry "TV1" dTV2, state := stP2,
             hass := { entries := [{ data := dTV2 }], claimed_ids := ["H"] } } := by
  have hc := C4_pairing_success oracleB stP {} "1234" dTV "authtok"
    (by simp [stP]) (by decide) rfl rfl
  exact ⟨hc.1.trans (by decide),
         (hc.2 "pairing_complete" (by decide)).trans (by decide)⟩

/-- C6: a conflict-free TV submission without an access token (outside
the discovery-confirmation and import-warning cases) stashes the
validated input as the pending config and transitions to `pair_tv`; a
failed `start_pair` call redisplays the `user` configuration form with
`cant_connect`, while a successful one shows the `pair_tv` PIN form. -/
theorem C6_tv_pairing_transition (o : Oracle) (st : FlowState) (h : Hass)
    (input : ConfigData)
    (hce : (conflict_errors h input).is_empty = true)
    (hcls : input.device_class = DeviceClass.tv)
    (htok : input.access_token = "")
    (hz : ¬ (st.must_show_form = true ∧ st.source = Source.zeroconf))
    (hi : ¬ (st.must_show_form = true ∧ st.source = Source.imported))
    (hch : st.ch_type = none) (hpt : st.pairing_token = none) :
    (o.start_pair = none →
      async_step_user o st h (some input) =
        some { result := FlowResult.show_form "user"
                 { base := some "cant_connect" } none,
               state := { st with user_schema := some input, data := some input },
               hass := h }) ∧
    (∀ pd, o.start_pair = some pd →
      async_step_user o st h (some input) =
        some { result := FlowResult.show_form "pair_tv" {} none,
               state := { st with
                          user_schema := some input, data := some input,
                          ch_type := some pd.ch_type,
                          pairing_token := some pd.token },
               hass := h }) := by
  have hnotsp : ¬ (input.device_class = DeviceClass.speaker ∨
      input.access_token ≠ "") := by
    simp [hcls, htok]
  constructor
  · intro hsp
    simp only [async_step_user]
    rw [if_pos hce, if_neg hz, if_neg hnotsp, if_neg hi]
    simp only [async_step_pair_tv]
    rw [if_pos ⟨hch, hpt⟩]
    simp only [hsp]
  · intro pd hsp
    simp only [async_step_user]
    rw [if_pos hce, if_neg hz, if_neg hnotsp, if_neg hi]
    simp only [async_step_pair_tv]
    rw [if_pos ⟨hch, hpt⟩]
    simp only [hsp, pair_tv_rest]

/-- Witness for C6: a TV submission with no token against a device whose
`start_pair` fails returns to the `user` form with `cant_connect`. -/
theorem C6_tv_pairing_transition_witness :
    async_step_user oracleA {} {} (some inputTV) =
      some { result := FlowResult.show_form "user"
               { base := some "cant_connect" } none,
             state := { user_schema := some inputTV, data := some inputTV },
             hass := {} } :=
  (C6_tv_pairing_transition oracleA {} {} inputTV (by decide) rfl rfl
    (by decide) (by decide) rfl rfl).1 rfl

/-- Shared helper for C8 and C10: a discovery start whose host matches
no existing entry re-enters the `user` step with the assembled input
(stripped name, `host:port`, guessed device class), which redisplays the
`user` form — with conflict errors when the stripped name collides, or
by consuming the discovery-confirmation flag otherwise — and never
creates an entry on that round. -/
theorem zeroconf_no_match_shows_form (o : Oracle) (st : FlowState) (h : Hass)
    (info : DiscoveryInfo)
    (hsrc : st.source = Source.zeroconf)
    (hnohost : (h.entries.any fun e =>
        host_is_same e.data.host (info.host ++ ":" ++ info.port)) = false) :
    ∃ out, async_step_zeroconf o st h info = some out ∧
      (∃ errs, out.result = FlowResult.show_form "user" errs none) ∧
      out.hass = h ∧
      out.state.user_schema = some
        { name := drop_last_chars info.name (info.type.data.length + 1),
          host := info.host ++ ":" ++ info.port,
          device_class := o.guess_device_type (info.host ++ ":" ++ info.port),
          access_token := "", volume_step := none } := by
  simp only [async_step_zeroconf]
  rw [if_neg (by simp [hnohost])]
  simp only [async_step_user]
  split
  · rw [if_pos ⟨by trivial, hsrc⟩]
    exact ⟨_, rfl, ⟨_, rfl⟩, rfl, rfl⟩
  · exact ⟨_, rfl, ⟨_, rfl⟩, rfl, rfl⟩

/-- C8: a discovery-triggered start aborts with `already_setup` when any
host of an existing entry matches the discovered host ignoring port;
otherwise the advertised name is truncated by the service-type length
plus one, the device class is guessed from the host, and the flow
re-enters step `user` with the assembled input, redisplaying the form
for confirmation without creating an entry on that round. -/
theorem C8_zeroconf_discovery (o : Oracle) (st : FlowState) (h : Hass)
    (info : DiscoveryInfo)
    (hsrc : st.source = Source.zeroconf) :
    ((h.entries.any fun e =>
        host_is_same e.data.host (info.host ++ ":" ++ info.port)) = true →
      async_step_zeroconf o st h info =
        some { result := FlowResult.abort "already_setup",
               state := { st with unique_id := some (host_head info.host) },
               hass := h }) ∧
    ((h.entries.any fun e =>
        host_is_same e.data.host (info.host ++ ":" ++ info.port)) = false →
      ∃ out, async_step_zeroconf o st h info = some out ∧
        (∃ errs, out.result = FlowResult.show_form "user" errs none) ∧
        out.hass = h ∧
        out.state.user_schema = some
          { name := drop_last_chars info.name (info.type.data.length + 1),
            host := info.host ++ ":" ++ info.port,
            device_class := o.guess_device_type (info.host ++ ":" ++ info.port),
            access_token := "", volume_step := none }) := by
  constructor
  · intro hmatch
    simp only [async_step_zeroconf]
    rw [if_pos hmatch]
  · intro hnohost
    exact zeroconf_no_match_shows_form o st h info hsrc hnohost

/-- Witness for C8: a fresh discovery on an empty store redisplays the
`user` form with the assembled input (`TV.x` stripped of `.x` gives
`TV`), creating nothing; the same discovery against a store already
holding that host aborts with `already_setup`. -/
theorem C8_zeroconf_discovery_witness :
    (∃ out, async_step_zeroconf oracleA stZ {} infoZ = some out ∧
      (∃ errs, out.result = FlowResult.show_form "user" errs none) ∧
      out.hass = {} ∧
      out.state.user_schema = some
        { name := drop_last_chars infoZ.name (infoZ.type.data.length + 1),
          host := infoZ.host ++ ":" ++ infoZ.port,
          device_class := oracleA.guess_device_type (infoZ.host ++ ":" ++ infoZ.port),
          access_token := "", volume_step := none }) ∧
    async_step_zeroconf oracleA stZ hassZ infoZ =
      some { result := FlowResult.abort "already_setup",
             state := { stZ with unique_id := some (host_head infoZ.host) },
             hass := hassZ } :=
  ⟨(C8_zeroconf_discovery oracleA stZ {} infoZ rfl).2 (by decide),
   (C8_zeroconf_discovery oracleA stZ hassZ infoZ rfl).1 (by decide)⟩

/-- C10: the discovery step strips exactly `len(service type) + 1`
trailing characters from the advertised name unconditionally; in
particular, for a discovery record whose name does not end with `.`
followed by the service type, the assembled default name is just that
truncation of the advertised name (possibly empty). -/
theorem C10_unconditional_strip (o : Oracle) (st : FlowState) (h : Hass)
    (info : DiscoveryInfo)
    (hsrc : st.source = Source.zeroconf)
    (hnosuf : ("." ++ info.type).data.isSuffixOf info.name.data = false)
    (hnohost : (h.entries.any fun e =>
        host_is_same e.data.host (info.host ++ ":" ++ info.port)) = false) :
    ∃ out, async_step_zeroconf o st h info = some out ∧
      ∃ cfg, out.state.user_schema = some cfg ∧
        cfg.name = String.mk
          (info.name.data.take (info.name.data.length - (info.type.data.length + 1))) := by
  obtain ⟨out, h1, _, _, h4⟩ := zeroconf_no_match_shows_form o st h info hsrc hnohost
  exact ⟨out, h1, _, h4, rfl⟩

/-- Witness for C10: the advertised name `ab` with service type `xyz`
(which it does not end with) is truncated to the empty string. -/
theorem C10_unconditional_strip_witness :
    ∃ out, async_step_zeroconf oracleA stZ {} infoBad = some out ∧
      ∃ cfg, out.state.user_schema = some cfg ∧ cfg.name = "" := by
  obtain ⟨out, h1, cfg, h2, h3⟩ :=
    C10_unconditional_strip oracleA stZ {} infoBad rfl (by decide) (by decide)
  exact ⟨out, h1, cfg, h2, h3.trans (by decide)⟩

end Vizio
